import Mathlib

/-!
Shallow embedding of `src/main.rs` of midnightexigent/hackathon-backend:
a small axum payment-gateway service with a vendor registry
(`GET/POST /vendors`) and a Solana payment endpoint (`POST /buy`).

Conventions of the embedding:
* Rust `Vec<Vendor>` under the `RwLock` becomes a `List Vendor`; the shared
  state of the process is `AppState`.
* The external Solana RPC client is a record of response functions
  (`RpcClient`); the confirmation call additionally receives the number of
  prior confirmation polls made by the same request, so that stub clients
  whose answers vary per invocation (as in the test scenarios of the spec) are
  expressible.
* Fallible external calls return `Except String _` (the `String` being the
  display text of the error); a Rust panic (an `unwrap` inside a library call
  that the handler cannot catch) is a distinct terminal outcome
  `BuyResult.panicked`, not an error value.
* The unbounded `while` confirmation loop of the handler takes a fuel
  parameter; exhausting the fuel yields the outcome `BuyResult.outOfFuel`,
  standing for the loop still running.
* Machine integers (`u64` lamports, `u16` port) are `Nat` with explicit
  range checks exactly where the Rust code performs them.
-/

/-- The `Vendor` struct (main.rs lines 20-28): `wallet_id`, `name`,
`address` (serde default), `services` (serde default). -/
structure Vendor where
  wallet_id : String
  name : String
  address : String
  services : List String
deriving DecidableEq, Repr

/-- A `POST /vendors` JSON body before serde fills in defaults: `address`
and `services` carry `#[serde(default)]`, so they may be omitted. -/
structure VendorInput where
  wallet_id : String
  name : String
  address : Option String
  services : Option (List String)
deriving DecidableEq, Repr

/-- Serde deserialization of a `POST /vendors` body into a `Vendor`:
omitted `address` defaults to `""`, omitted `services` to `[]`
(the `#[serde(default)]` attributes on main.rs lines 24-27). -/
def VendorInput.deserialize (i : VendorInput) : Vendor :=
  { wallet_id := i.wallet_id
    name := i.name
    address := i.address.getD ""
    services := i.services.getD [] }

/-- The shared mutable state of the server: the vendor registry guarded by
the `RwLock` (main.rs line 36, `type SharedVendors = Arc<RwLock<Vec<Vendor>>>`). -/
structure AppState where
  vendors : List Vendor
deriving DecidableEq, Repr

/-- The `list` handler (main.rs lines 119-123): clones the registry under a
read lock and returns it as the JSON body of a 200 response. -/
def list (st : AppState) : List Vendor :=
  st.vendors

/-- The `insert` handler (main.rs lines 125-129): pushes the deserialized
vendor onto the end of the registry under a write lock. It returns `()`,
which axum renders as a 200 response with empty body; the second component
is that status code. -/
def insert (st : AppState) (input : Vendor) : AppState × Nat :=
  (⟨st.vendors ++ [input]⟩, 200)

/-- Running a sequence of `insert` calls starting from the empty registry. -/
def runInserts (vs : List Vendor) : AppState :=
  vs.foldl (fun st v => (insert st v).1) ⟨[]⟩

/-! ## Base58 (the `bs58` crate, Bitcoin alphabet), as used by
`Keypair::from_base58_string` and `Pubkey::from_str` of solana-sdk. -/

/-- The Bitcoin base58 alphabet used by the `bs58` crate. -/
def base58Alphabet : List Char :=
  "123456789ABCDEFGHJKLMNPQRSTUVWXYZabcdefghijkmnopqrstuvwxyz".toList

/-- The value of one base58 digit; `none` for a character outside the
alphabet (which makes `bs58::decode` fail). -/
def base58Index (c : Char) : Option Nat :=
  base58Alphabet.findIdx? (fun a => a == c)

/-- Digit values of a whole string, `none` as soon as one character is
invalid. -/
def bs58DigitsOf : List Char → Option (List Nat)
  | [] => some []
  | c :: cs =>
    match base58Index c, bs58DigitsOf cs with
    | some d, some ds => some (d :: ds)
    | _, _ => none

/-- Number of leading zero digits (leading `'1'` characters), each of which
decodes to one leading zero byte. -/
def countLeadingZeroDigits : List Nat → Nat
  | 0 :: ds => countLeadingZeroDigits ds + 1
  | _ => 0

/-- Big-endian bytes of a natural number, with explicit fuel (the number
itself bounds the number of digits, so `fuel := n` always suffices). -/
def natToBytesBEAux : Nat → Nat → List Nat
  | 0, _ => []
  | fuel + 1, n => if n = 0 then [] else natToBytesBEAux fuel (n / 256) ++ [n % 256]

/-- Big-endian byte representation of a natural number (empty for 0). -/
def natToBytesBE (n : Nat) : List Nat :=
  natToBytesBEAux n n

/-- Model of `bs58::decode(s).into_vec()`: interpret the string as a big-endian
base-58 number, emitting one zero byte per leading `'1'`; `none` on an
invalid character. -/
def bs58Decode (s : String) : Option (List Nat) :=
  (bs58DigitsOf s.toList).map fun ds =>
    List.replicate (countLeadingZeroDigits ds) 0
      ++ natToBytesBE (ds.foldl (fun a d => a * 58 + d) 0)

/-- A solana `Keypair`, modelled as its 64-byte encoding (secret key
followed by public key). -/
structure Keypair where
  bytes : List Nat
deriving DecidableEq, Repr

/-- Model of `Keypair::from_base58_string` (solana-sdk): `Keypair::from_bytes(
&bs58::decode(s).into_vec().unwrap()).unwrap()`. Its Rust type is
`fn(&str) -> Keypair`: it has no error path and PANICS on invalid base58
or on a decoded length other than 64. `none` here models that panic. -/
def Keypair.from_base58_string (s : String) : Option Keypair :=
  match bs58Decode s with
  | none => none
  | some bytes => if bytes.length = 64 then some ⟨bytes⟩ else none

/-- A solana `Pubkey`, modelled as its 32 bytes. -/
structure Pubkey where
  bytes : List Nat
deriving DecidableEq, Repr

/-- The error type of `Pubkey::from_str`. -/
inductive ParsePubkeyError where
  | wrongSize
  | invalid
deriving DecidableEq, Repr

/-- Display text of a `ParsePubkeyError`, as propagated into the error
response of the handler by the `?` on main.rs line 106. -/
def ParsePubkeyError.message : ParsePubkeyError → String
  | .wrongSize => "String is the wrong size"
  | .invalid => "Invalid Base58 string"

/-- Model of `Pubkey::from_str` (solana-sdk): rejects strings longer than 44
characters, then base58-decodes and requires exactly 32 bytes. -/
def Pubkey.from_str (s : String) : Except ParsePubkeyError Pubkey :=
  if s.length > 44 then .error .wrongSize
  else
    match bs58Decode s with
    | none => .error .invalid
    | some bytes => if bytes.length = 32 then .ok ⟨bytes⟩ else .error .wrongSize

/-! ## The ledger client and the `buy` handler (main.rs lines 86-117). -/

/-- The `POST /buy` JSON body (main.rs lines 86-91). -/
structure BuyParams where
  lamports : Nat
  vendor : String
  buyer_pair : String
deriving DecidableEq, Repr

/-- The transfer transaction built by `system_transaction::transfer`
(main.rs lines 109-114): from-keypair, destination, lamports, recent
blockhash. -/
structure Transaction where
  from_keypair : Keypair
  to_pubkey : Pubkey
  lamports : Nat
  recent_blockhash : String
deriving DecidableEq, Repr

/-- Model of `system_transaction::transfer(from, to, lamports, recent_blockhash)`. -/
def system_transaction.transfer (fk : Keypair) (toPk : Pubkey) (lamports : Nat)
    (recent_blockhash : String) : Transaction :=
  ⟨fk, toPk, lamports, recent_blockhash⟩

/-- The external Solana `RpcClient`, as the record of responses its three
calls used by `buy` would give. `confirm_transaction` also receives the
number of confirmation polls this request already made, so a stub whose
answer changes per invocation (the scenario "not confirmed twice, then
confirmed") is expressible; a client ignoring that index models a fixed
response. Errors carry their display text. -/
structure RpcClient where
  get_latest_blockhash : Except String String
  send_and_confirm_transaction : Transaction → Except String String
  confirm_transaction : String → Nat → Except String Bool

/-- The kinds of ledger calls `buy` can make, for tracing which network
interactions a request performed. -/
inductive LedgerCall where
  | getLatestBlockhash
  | sendAndConfirm
  | confirmTransaction
deriving DecidableEq, Repr, BEq

/-- The failures the `buy` handler can return to the caller (each reaches
the caller through `Error` / `anyhow::Error`, carrying a message).
`vendorNotWhitelisted` is the error the handler itself builds with `anyhow!` (line 102);
the others are library errors propagated by `?`. Note there is no
malformed-credential case: `Keypair::from_base58_string` panics instead
of returning an error. -/
inductive BuyError where
  | vendorNotWhitelisted (vendor : String)
  | malformedAddress (e : ParsePubkeyError)
  | blockhashFailed (msg : String)
  | submissionFailed (msg : String)
  | confirmationCheckFailed (msg : String)
deriving DecidableEq, Repr

/-- Display text of a `buy` failure (`self.0.to_string()` in
`Error::into_response`). -/
def BuyError.message : BuyError → String
  | .vendorNotWhitelisted v => v ++ " is not whitelisted"
  | .malformedAddress e => e.message
  | .blockhashFailed m => m
  | .submissionFailed m => m
  | .confirmationCheckFailed m => m

/-- Terminal outcome of one `buy` request. `panicked` models a Rust panic
(no value is returned to the caller at all); `outOfFuel` models the
unbounded confirmation loop still running after the given fuel. -/
inductive BuyResult where
  | ok
  | err (e : BuyError)
  | panicked
  | outOfFuel
deriving DecidableEq, Repr

/-- What one `buy` request leaves behind: the registry afterwards, the
outcome, and the ledger calls made, in order. -/
structure BuyOut where
  state : AppState
  result : BuyResult
  calls : List LedgerCall
deriving Repr

/-- The `while !state.client.confirm_transaction(&sig)? {}` loop
(main.rs line 115), with fuel. `polls` counts the confirmation calls made
so far by this request; the result pairs the outcome with the total number
of confirmation polls performed. -/
def confirmLoop (client : RpcClient) (sig : String) :
    Nat → Nat → BuyResult × Nat
  | 0, polls => (.outOfFuel, polls)
  | fuel + 1, polls =>
    match client.confirm_transaction sig polls with
    | .error m => (.err (.confirmationCheckFailed m), polls + 1)
    | .ok true => (.ok, polls + 1)
    | .ok false => confirmLoop client sig fuel (polls + 1)

/-- The `buy` handler (main.rs lines 93-117), step by step:
1. whitelist check: `vendors.read().iter().any(|v| v.wallet_id == params.vendor)`,
   exact case-sensitive string equality; on failure return the
   `anyhow!("{} is not whitelisted", params.vendor)` error (lines 95-103);
2. `Keypair::from_base58_string(&params.buyer_pair)` — panics on malformed
   input (line 105);
3. `Pubkey::from_str(&params.vendor)?` (line 106);
4. `state.client.get_latest_blockhash()?` (line 113, evaluated while
   building the transfer, before submission);
5. `state.client.send_and_confirm_transaction(&system_transaction::transfer(..))?`
   (lines 107-114);
6. the confirmation poll loop (line 115).
The registry is only ever read; every branch returns it unchanged. -/
def buy (fuel : Nat) (client : RpcClient) (st : AppState) (params : BuyParams) :
    BuyOut :=
  if !(st.vendors.any fun v => v.wallet_id == params.vendor) then
    ⟨st, .err (.vendorNotWhitelisted params.vendor), []⟩
  else
    match Keypair.from_base58_string params.buyer_pair with
    | none => ⟨st, .panicked, []⟩
    | some from_keypair =>
      match Pubkey.from_str params.vendor with
      | .error e => ⟨st, .err (.malformedAddress e), []⟩
      | .ok toAddr =>
        match client.get_latest_blockhash with
        | .error m => ⟨st, .err (.blockhashFailed m), [.getLatestBlockhash]⟩
        | .ok bh =>
          match client.send_and_confirm_transaction
              (system_transaction.transfer from_keypair toAddr params.lamports bh) with
          | .error m =>
            ⟨st, .err (.submissionFailed m), [.getLatestBlockhash, .sendAndConfirm]⟩
          | .ok sig =>
            let r := confirmLoop client sig fuel 0
            ⟨st, r.1,
              [.getLatestBlockhash, .sendAndConfirm]
                ++ List.replicate r.2 .confirmTransaction⟩

/-! ## The error-to-response boundary (main.rs lines 65-84). -/

/-- The JSON error body `struct S { error: String }` of
`Error::into_response`. -/
structure ErrorBody where
  error : String
deriving DecidableEq, Repr

/-- Model of `Error::into_response` (main.rs lines 73-84): every error, regardless
of kind, becomes status 500 (`StatusCode::INTERNAL_SERVER_ERROR`) with
JSON body `{error: <display text>}`. -/
def Error.into_response (e : BuyError) : Nat × ErrorBody :=
  (500, ⟨e.message⟩)

/-- The HTTP response the caller of `POST /buy` observes: `Ok(())` renders
as 200 with no body, `Err(e)` through `Error::into_response`; a panic or a
still-running loop produces no response (`none`). -/
def buyHttpResponse : BuyResult → Option (Nat × Option ErrorBody)
  | .ok => some (200, none)
  | .err e => some ((Error.into_response e).1, some (Error.into_response e).2)
  | .panicked => none
  | .outOfFuel => none

/-! ## Startup configuration (main.rs lines 50-58). -/

/-- Model of `u16::from_str`: an optional leading `'+'`, then at least one ASCII
decimal digit, value at most 65535; anything else is a parse error. -/
def u16_from_str (s : String) : Option Nat :=
  let ds := match s.toList with
    | '+' :: rest => rest
    | cs => cs
  if ds.isEmpty then none
  else if ds.all Char.isDigit then
    let n := ds.foldl (fun a c => a * 10 + (c.toNat - 48)) 0
    if n ≤ 65535 then some n else none
  else none

/-- Port selection (main.rs lines 50-56): `env::args().nth(1)` is the first
command-line argument after the program name; if present it must parse as a
`u16` — a parse failure aborts startup with the context message
`"failed to parse provided port"` — and if absent the port defaults
to 3030. -/
def resolvePort (argv : List String) : Except String Nat :=
  match (argv.drop 1).head? with
  | none => .ok 3030
  | some a =>
    match u16_from_str a with
    | none => .error "failed to parse provided port"
    | some p => .ok p

/-- The socket address the server binds (main.rs line 58):
`SocketAddr::from(([127, 0, 0, 1], port))`. -/
def serverAddr (argv : List String) : Except String (List Nat × Nat) :=
  (resolvePort argv).map fun p => ([127, 0, 0, 1], p)

/-! ## The tracing instrumentation of `buy` (main.rs line 93). -/

/-- Rust `Debug` rendering of a string (quotes around the content; escaping
inside the content is not modelled). -/
def rustStringDebug (s : String) : String :=
  "\"" ++ s ++ "\""

/-- The derived `Debug` rendering of `BuyParams` (main.rs line 86,
`#[derive(Debug, Deserialize)]`). -/
def BuyParams.debugFmt (p : BuyParams) : String :=
  "BuyParams \x7b lamports: " ++ toString p.lamports
    ++ ", vendor: " ++ rustStringDebug p.vendor
    ++ ", buyer_pair: " ++ rustStringDebug p.buyer_pair ++ " \x7d"

/-- The span fields recorded by `#[tracing::instrument(skip(state))]` on
`buy` (main.rs line 93): every argument of the function except the skipped
`state` is recorded as a field under its name, rendered with its `Debug`
implementation — so the whole `params` value, `buyer_pair` included, is
handed to the logging subscriber (the `Json` extractor wrapper prints as
`Json(<inner>)`). -/
def buySpanFields (params : BuyParams) : List (String × String) :=
  [("params", "Json(" ++ params.debugFmt ++ ")")]

/-- Whether `needle` occurs at the front of `hay`. -/
def matchesFront : List Char → List Char → Bool
  | [], _ => true
  | _ :: _, [] => false
  | n :: ns, h :: hs => n == h && matchesFront ns hs

/-- Whether `needle` occurs anywhere inside `hay`. -/
def occursIn (needle : List Char) : List Char → Bool
  | [] => matchesFront needle []
  | h :: hs => matchesFront needle (h :: hs) || occursIn needle hs

/-- Substring test on strings. -/
def strContains (hay needle : String) : Bool :=
  occursIn needle.toList hay.toList

/-! ## Concrete values used to instantiate the theorems: the vendors,
requests and stub ledger clients of the test scenarios in the spec. -/

/-- The scenario vendor of the spec, `{wallet_id: "V1", name: "Acme"}` with the
defaulted fields. -/
def vendorV1 : Vendor := ⟨"V1", "Acme", "", []⟩

/-- A base58 string decoding to 32 zero bytes: a syntactically valid
solana pubkey (the system program address). -/
def pk32 : String := "11111111111111111111111111111111"

/-- A base58 string decoding to 64 zero bytes: a well-formed keypair
encoding at the length granularity modelled here. -/
def buyer64 : String :=
  "1111111111111111111111111111111111111111111111111111111111111111"

/-- A registry holding one vendor whose `wallet_id` is the valid pubkey
string `pk32`. -/
def stPk : AppState := ⟨[⟨pk32, "Acme", "", []⟩]⟩

/-- A well-formed `/buy` request targeting that vendor. -/
def paramsPk : BuyParams := ⟨100, pk32, buyer64⟩

/-- Stub ledger client of the confirmation scenario in the spec: accepts the
submission and reports "not confirmed" on the first two polls, "confirmed"
from the third on. -/
def stubAccept3 : RpcClient :=
  { get_latest_blockhash := .ok "BH"
    send_and_confirm_transaction := fun _ => .ok "SIG"
    confirm_transaction := fun _ i => .ok (decide (2 ≤ i)) }

/-- Stub ledger client whose submission call always errors. -/
def stubSendErr : RpcClient :=
  { get_latest_blockhash := .ok "BH"
    send_and_confirm_transaction := fun _ => .error "transport error"
    confirm_transaction := fun _ _ => .ok true }

/-- Stub ledger client for requests that never reach the ledger. -/
def stubClientUnused : RpcClient :=
  { get_latest_blockhash := .error "unreachable"
    send_and_confirm_transaction := fun _ => .error "unreachable"
    confirm_transaction := fun _ _ => .error "unreachable" }

/-! ## Theorems. -/

/-- Helper: the defining equation of the `insert` handler, usable by
`simp` (the bare name `insert` is shadowed by the set-insertion of Mathlib). -/
theorem insert_def (st : AppState) (input : Vendor) :
    insert st input = (⟨st.vendors ++ [input]⟩, 200) := rfl

/-- Helper: folding `insert` over a vendor list appends it to the registry. -/
theorem foldl_insert_vendors (vs : List Vendor) (s : AppState) :
    (vs.foldl (fun st v => (insert st v).1) s).vendors = s.vendors ++ vs := by
  induction vs generalizing s with
  | nil => simp
  | cons v tl ih =>
    simp only [List.foldl_cons, insert_def] at ih ⊢
    rw [ih]
    simp

/-- Claim C2: inserting any finite sequence of vendors into the empty
registry and then listing returns exactly that sequence, in insertion
order, with every record unmodified. -/
theorem list_after_inserts_is_insertion_order (vs : List Vendor) :
    list (runInserts vs) = vs := by
  simpa [list, runInserts] using foldl_insert_vendors vs ⟨[]⟩

/-- Claim C1: a `/buy` request whose vendor matches no registered
`wallet_id` (exact, case-sensitive equality) fails with the
vendor-not-whitelisted error, makes no ledger call of any kind, and the
rendered response is status 500 with body `{error: "<vendor> is not
whitelisted"}`; in particular no submission happens without a matching
vendor. -/
theorem buy_unwhitelisted_vendor_rejected_without_ledger_calls
    (fuel : Nat) (client : RpcClient) (st : AppState) (params : BuyParams)
    (h : ∀ v ∈ st.vendors, v.wallet_id ≠ params.vendor) :
    (buy fuel client st params).result
        = .err (.vendorNotWhitelisted params.vendor) ∧
    (buy fuel client st params).calls = [] ∧
    buyHttpResponse (buy fuel client st params).result
        = some (500, some ⟨params.vendor ++ " is not whitelisted"⟩) := by
  have hw : (st.vendors.any fun v => v.wallet_id == params.vendor) = false := by
    by_contra hc
    rw [Bool.not_eq_false, List.any_eq_true] at hc
    obtain ⟨v, hv, he⟩ := hc
    exact h v hv (by simpa using he)
  refine ⟨?_, ?_, ?_⟩ <;>
    simp [buy, hw, buyHttpResponse, Error.into_response, BuyError.message]

/-- Witness for C1: with only `V1` registered, buying from `V2` is
rejected with the expected body and zero ledger calls. -/
theorem buy_unwhitelisted_vendor_rejected_witness :
    (buy 1 stubClientUnused ⟨[vendorV1]⟩ ⟨100, "V2", "x"⟩).result
        = .err (.vendorNotWhitelisted "V2") ∧
    (buy 1 stubClientUnused ⟨[vendorV1]⟩ ⟨100, "V2", "x"⟩).calls = [] ∧
    buyHttpResponse (buy 1 stubClientUnused ⟨[vendorV1]⟩ ⟨100, "V2", "x"⟩).result
        = some (500, some ⟨"V2" ++ " is not whitelisted"⟩) :=
  buy_unwhitelisted_vendor_rejected_without_ledger_calls
    1 stubClientUnused ⟨[vendorV1]⟩ ⟨100, "V2", "x"⟩ (by decide)

/-- Claim C8: whatever the outcome of a `/buy` request, the registry is
left exactly as it was — the handler only reads it. -/
theorem buy_leaves_registry_unchanged
    (fuel : Nat) (client : RpcClient) (st : AppState) (params : BuyParams) :
    (buy fuel client st params).state = st := by
  unfold buy
  split
  · rfl
  · split
    · rfl
    · split
      · rfl
      · split
        · rfl
        · split
          · rfl
          · rfl

/-- Claim C6: every failing `/buy` request, whichever error kind occurred,
is rendered by `Error::into_response` as status 500 with JSON body
`{error: <message>}`; no error kind gets a distinct status code. -/
theorem buy_failure_response_uniform_500
    (fuel : Nat) (client : RpcClient) (st : AppState) (params : BuyParams)
    (e : BuyError)
    (h : (buy fuel client st params).result = .err e) :
    buyHttpResponse (buy fuel client st params).result
        = some (500, some ⟨e.message⟩) ∧
    ∀ e2 : BuyError, (Error.into_response e2).1 = 500 := by
  rw [h]
  exact ⟨rfl, fun _ => rfl⟩

/-- Witness for C6: the concrete whitelist failure renders as a 500 with
its message in the `error` field. -/
theorem buy_failure_response_uniform_500_witness :
    buyHttpResponse (buy 1 stubClientUnused ⟨[vendorV1]⟩ ⟨100, "V2", "x"⟩).result
        = some (500, some ⟨BuyError.message (.vendorNotWhitelisted "V2")⟩) :=
  (buy_failure_response_uniform_500 1 stubClientUnused ⟨[vendorV1]⟩
    ⟨100, "V2", "x"⟩ (.vendorNotWhitelisted "V2") (by decide)).1

/-- Claim C7: every well-formed `POST /vendors` body succeeds with status
200: omitted `address` defaults to `""`, omitted `services` to `[]`, the
record is appended as-is with no validation and no duplicate check, and
the registry grows by exactly one. -/
theorem insert_appends_with_defaults (st : AppState) (i : VendorInput) :
    (insert st i.deserialize).1.vendors = st.vendors ++ [i.deserialize] ∧
    (insert st i.deserialize).2 = 200 ∧
    (insert st i.deserialize).1.vendors.length = st.vendors.length + 1 ∧
    (i.address = none → i.deserialize.address = "") ∧
    (i.services = none → i.deserialize.services = []) := by
  refine ⟨rfl, rfl, by simp [insert_def], fun h => ?_, fun h => ?_⟩ <;>
    simp [VendorInput.deserialize, h]

/-- Witness for C7: inserting a vendor with omitted optional fields and a
`wallet_id` duplicating an already-registered one still appends it. -/
theorem insert_appends_with_defaults_witness :
    (insert ⟨[vendorV1]⟩ (VendorInput.deserialize ⟨"V1", "Other", none, none⟩)).1.vendors
        = AppState.vendors ⟨[vendorV1]⟩
            ++ [VendorInput.deserialize ⟨"V1", "Other", none, none⟩] ∧
    (insert ⟨[vendorV1]⟩ (VendorInput.deserialize ⟨"V1", "Other", none, none⟩)).2 = 200 ∧
    (VendorInput.deserialize ⟨"V1", "Other", none, none⟩).address = "" ∧
    (VendorInput.deserialize ⟨"V1", "Other", none, none⟩).services = [] := by
  have h := insert_appends_with_defaults ⟨[vendorV1]⟩ ⟨"V1", "Other", none, none⟩
  exact ⟨h.1, h.2.1, h.2.2.2.1 rfl, h.2.2.2.2 rfl⟩

/-- Claim C10: a first command-line argument that does not parse as a u16
aborts startup with the error `"failed to parse provided port"`; with no
argument the server binds 127.0.0.1:3030. -/
theorem startup_port_parsing (argv : List String) :
    (∀ a, (argv.drop 1).head? = some a → u16_from_str a = none →
        resolvePort argv = .error "failed to parse provided port") ∧
    ((argv.drop 1).head? = none →
        serverAddr argv = .ok ([127, 0, 0, 1], 3030)) := by
  constructor
  · intro a ha hbad
    simp only [resolvePort, ha, hbad]
  · intro h
    simp only [serverAddr, resolvePort, h]
    rfl

/-- Witness for C10: the argument `"abc"` aborts startup; no argument
yields 127.0.0.1:3030. -/
theorem startup_port_parsing_witness :
    resolvePort ["server", "abc"] = .error "failed to parse provided port" ∧
    serverAddr ["server"] = .ok ([127, 0, 0, 1], 3030) :=
  ⟨(startup_port_parsing ["server", "abc"]).1 "abc" rfl (by decide),
   (startup_port_parsing ["server"]).2 rfl⟩

/-- Counterexample to claim C3 as stated: with `V1` registered and the
malformed credential `"!"` (not base58), the `buy` handler does not fail
with a malformed-credential error returned to the caller — it PANICS
(`Keypair::from_base58_string` has no error path and unwraps), which in
this model is the outcome `panicked`, distinct from every `err _`. No
network submission happens (no ledger call is made). -/
theorem buy_malformed_credential_panics_concrete :
    (buy 1 stubClientUnused ⟨[vendorV1]⟩ ⟨100, "V1", "!"⟩).result = .panicked ∧
    (buy 1 stubClientUnused ⟨[vendorV1]⟩ ⟨100, "V1", "!"⟩).calls = [] := by
  decide

/-- Claim C3 as amended: a `/buy` request whose vendor matches a registered
`wallet_id` but whose `buyer_pair` is not a validly-formed credential makes
the handler panic before any network submission (no ledger call of any
kind); no MalformedCredential error is constructed or returned. -/
theorem buy_malformed_credential_panics
    (fuel : Nat) (client : RpcClient) (st : AppState) (params : BuyParams)
    (hw : (st.vendors.any fun v => v.wallet_id == params.vendor) = true)
    (hk : Keypair.from_base58_string params.buyer_pair = none) :
    (buy fuel client st params).result = .panicked ∧
    (buy fuel client st params).calls = [] := by
  refine ⟨?_, ?_⟩ <;> simp [buy, hw, hk]

/-- Witness for the amended C3 at the concrete malformed input. -/
theorem buy_malformed_credential_panics_witness :
    (buy 2 stubClientUnused ⟨[vendorV1]⟩ ⟨50, "V1", ""⟩).result = .panicked ∧
    (buy 2 stubClientUnused ⟨[vendorV1]⟩ ⟨50, "V1", ""⟩).calls = [] :=
  buy_malformed_credential_panics 2 stubClientUnused ⟨[vendorV1]⟩ ⟨50, "V1", ""⟩
    (by decide) (by decide)

/-- Helper: one step of the confirmation loop with fuel left. -/
theorem confirmLoop_succ (client : RpcClient) (sig : String) (fuel polls : Nat) :
    confirmLoop client sig (fuel + 1) polls =
      match client.confirm_transaction sig polls with
      | .error m => (.err (.confirmationCheckFailed m), polls + 1)
      | .ok true => (.ok, polls + 1)
      | .ok false => confirmLoop client sig fuel (polls + 1) := by
  simp [confirmLoop]

/-- Claim C4: when the request passes the whitelist check and both parsing
steps, and the ledger client accepts the submission and reports "not
confirmed" on the first two confirmation polls and "confirmed" on the
third, the request succeeds after exactly three confirmation polls. -/
theorem buy_confirms_after_exactly_three_polls
    (fuel : Nat) (client : RpcClient) (st : AppState) (params : BuyParams)
    (kp : Keypair) (toPk : Pubkey) (bh sig : String)
    (hw : (st.vendors.any fun v => v.wallet_id == params.vendor) = true)
    (hk : Keypair.from_base58_string params.buyer_pair = some kp)
    (ha : Pubkey.from_str params.vendor = .ok toPk)
    (hbh : client.get_latest_blockhash = .ok bh)
    (hsend : client.send_and_confirm_transaction
        (system_transaction.transfer kp toPk params.lamports bh) = .ok sig)
    (hc0 : client.confirm_transaction sig 0 = .ok false)
    (hc1 : client.confirm_transaction sig 1 = .ok false)
    (hc2 : client.confirm_transaction sig 2 = .ok true)
    (hfuel : 3 ≤ fuel) :
    (buy fuel client st params).result = .ok ∧
    ((buy fuel client st params).calls.count .confirmTransaction) = 3 := by
  obtain ⟨k, rfl⟩ : ∃ k, fuel = k + 3 := ⟨fuel - 3, by omega⟩
  have hloop : confirmLoop client sig (k + 3) 0 = (.ok, 3) := by
    have e1 : confirmLoop client sig (k + 3) 0 = confirmLoop client sig (k + 2) 1 := by
      rw [show k + 3 = (k + 2) + 1 from rfl, confirmLoop_succ, hc0]
    have e2 : confirmLoop client sig (k + 2) 1 = confirmLoop client sig (k + 1) 2 := by
      rw [show k + 2 = (k + 1) + 1 from rfl, confirmLoop_succ, hc1]
    have e3 : confirmLoop client sig (k + 1) 2 = (.ok, 3) := by
      rw [show k + 1 = k + 1 from rfl, confirmLoop_succ, hc2]
    rw [e1, e2, e3]
  have hbuy : buy (k + 3) client st params =
      ⟨st, .ok, [.getLatestBlockhash, .sendAndConfirm]
          ++ List.replicate 3 .confirmTransaction⟩ := by
    simp [buy, hw, hk, ha, hbh, hsend, hloop]
  rw [hbuy]
  exact ⟨rfl, rfl⟩

set_option maxRecDepth 8192 in
/-- Witness for C4: the stub scenario of the spec, concretely. -/
theorem buy_confirms_after_exactly_three_polls_witness :
    (buy 3 stubAccept3 stPk paramsPk).result = .ok ∧
    ((buy 3 stubAccept3 stPk paramsPk).calls.count .confirmTransaction) = 3 :=
  buy_confirms_after_exactly_three_polls 3 stubAccept3 stPk paramsPk
    ⟨List.replicate 64 0⟩ ⟨List.replicate 32 0⟩ "BH" "SIG"
    (by decide) rfl rfl rfl rfl rfl rfl rfl (by decide)

/-- Claim C5: when the ledger submission call errors, the request fails
with the submission error, the submission is attempted exactly once (no
retry), and the confirmation step is never invoked. -/
theorem buy_submission_error_terminal
    (fuel : Nat) (client : RpcClient) (st : AppState) (params : BuyParams)
    (kp : Keypair) (toPk : Pubkey) (bh msg : String)
    (hw : (st.vendors.any fun v => v.wallet_id == params.vendor) = true)
    (hk : Keypair.from_base58_string params.buyer_pair = some kp)
    (ha : Pubkey.from_str params.vendor = .ok toPk)
    (hbh : client.get_latest_blockhash = .ok bh)
    (hsend : client.send_and_confirm_transaction
        (system_transaction.transfer kp toPk params.lamports bh) = .error msg) :
    (buy fuel client st params).result = .err (.submissionFailed msg) ∧
    (buy fuel client st params).calls = [.getLatestBlockhash, .sendAndConfirm] ∧
    ((buy fuel client st params).calls.count .sendAndConfirm) = 1 ∧
    ((buy fuel client st params).calls.count .confirmTransaction) = 0 := by
  have hbuy : buy fuel client st params =
      ⟨st, .err (.submissionFailed msg), [.getLatestBlockhash, .sendAndConfirm]⟩ := by
    simp [buy, hw, hk, ha, hbh, hsend]
  rw [hbuy]
  exact ⟨rfl, rfl, rfl, rfl⟩

set_option maxRecDepth 8192 in
/-- Witness for C5: a stub whose submission always errors, concretely. -/
theorem buy_submission_error_terminal_witness :
    (buy 4 stubSendErr stPk paramsPk).result
        = .err (.submissionFailed "transport error") ∧
    (buy 4 stubSendErr stPk paramsPk).calls
        = [.getLatestBlockhash, .sendAndConfirm] ∧
    ((buy 4 stubSendErr stPk paramsPk).calls.count .sendAndConfirm) = 1 ∧
    ((buy 4 stubSendErr stPk paramsPk).calls.count .confirmTransaction) = 0 :=
  buy_submission_error_terminal 4 stubSendErr stPk paramsPk
    ⟨List.replicate 64 0⟩ ⟨List.replicate 32 0⟩ "BH" "transport error"
    (by decide) rfl rfl rfl rfl

/-- Counterexample to claim C9 as stated: the buyer credential does appear
in the data the handler hands to the logging layer. For the concrete
request with `buyer_pair = "SECRET"`, the span created by
`#[tracing::instrument(skip(state))]` on `buy` records the non-skipped
argument `params` as a field whose `Debug` rendering contains the
credential verbatim. -/
theorem buy_span_records_buyer_pair :
    buySpanFields ⟨100, "V1", "SECRET"⟩ =
      [("params",
        "Json(BuyParams \x7b lamports: 100, vendor: \"V1\", buyer_pair: \"SECRET\" \x7d)")] ∧
    strContains
      "Json(BuyParams \x7b lamports: 100, vendor: \"V1\", buyer_pair: \"SECRET\" \x7d)"
      "SECRET" = true := by
  constructor
  · rfl
  · decide

/-- Claim C9 as amended: the tracing span of `buy` does record the request
params — `buyer_pair` included — since only `state` is skipped; but the
error message the handler itself constructs mentions only the vendor, and
the whitelist-failure outcome is independent of the credential: two
requests with the same vendor and no matching registered wallet produce
identical results, ledger traces and responses whatever their
`buyer_pair` and `lamports`. -/
theorem buy_whitelist_failure_ignores_buyer_pair
    (fuel : Nat) (client : RpcClient) (st : AppState) (p1 p2 : BuyParams)
    (hv : p1.vendor = p2.vendor)
    (hw : (st.vendors.any fun v => v.wallet_id == p1.vendor) = false) :
    (buy fuel client st p1).result = (buy fuel client st p2).result ∧
    (buy fuel client st p1).calls = (buy fuel client st p2).calls ∧
    buyHttpResponse (buy fuel client st p1).result
        = some (500, some ⟨p1.vendor ++ " is not whitelisted"⟩) := by
  have hw2 : (st.vendors.any fun v => v.wallet_id == p2.vendor) = false := hv ▸ hw
  refine ⟨?_, ?_, ?_⟩ <;>
    simp [buy, hw, hw2, hv, buyHttpResponse, Error.into_response, BuyError.message]

/-- Witness for the amended C9: two requests differing only in
`buyer_pair` get the same whitelist-failure treatment. -/
theorem buy_whitelist_failure_ignores_buyer_pair_witness :
    (buy 1 stubClientUnused ⟨[vendorV1]⟩ ⟨100, "V2", "SECRET-A"⟩).result
        = (buy 1 stubClientUnused ⟨[vendorV1]⟩ ⟨100, "V2", "SECRET-B"⟩).result ∧
    (buy 1 stubClientUnused ⟨[vendorV1]⟩ ⟨100, "V2", "SECRET-A"⟩).calls
        = (buy 1 stubClientUnused ⟨[vendorV1]⟩ ⟨100, "V2", "SECRET-B"⟩).calls ∧
    buyHttpResponse (buy 1 stubClientUnused ⟨[vendorV1]⟩ ⟨100, "V2", "SECRET-A"⟩).result
        = some (500, some ⟨"V2" ++ " is not whitelisted"⟩) :=
  buy_whitelist_failure_ignores_buyer_pair 1 stubClientUnused ⟨[vendorV1]⟩
    ⟨100, "V2", "SECRET-A"⟩ ⟨100, "V2", "SECRET-B"⟩ rfl (by decide)
